import Mathlib

/-!
# bebop_autonomy: the `Bebop` driver object (`src/bebop.cpp`)

A shallow embedding of the class `bebop_autonomy::Bebop`.

* The object is a record of its data members; a member function is a function
  from the object (and its arguments) to its result and the object afterwards.
* A C++ exception is an `Except.error`; the object is returned next to it,
  because the assignments made before a `throw` stay made.
* The ARSDK3 library is not part of the repository. Every call into it is
  appended to the ghost field `sdk_calls`, and what the call reports (an error
  code, a device state, a new handle) is an argument of the member function.
* The model is sequential: `ARSAL_Sem_Wait` is recorded and taken to return
  (its post comes from `StateChangedCallback` on an SDK thread), and
  `GetFrontCameraFrame` has no result while no frame is available.
* `ARSAL_PRINT` logging is left out.
* A finite `double` is given by its exact rational value. A comparison is
  made on these values; a product is rounded to the nearest binary64 value
  (`double_mul`); the conversion of a `double` to the `int8_t` of an SDK
  parameter drops the fraction (`static_cast_int8_t`). Infinities and NaN are
  not modelled.
-/

namespace bebop_autonomy

/-- A non-null pointer value. A pointer member is an `Option Handle`, `none` being `NULL`. -/
abbrev Handle := Nat

/-- The SDK enum `eARCONTROLLER_ERROR`, as far as the source tells its values
apart: `ARCONTROLLER_OK`, or some other code. -/
inductive eARCONTROLLER_ERROR where
  | ARCONTROLLER_OK
  | ARCONTROLLER_ERROR (code : Nat)
  deriving DecidableEq, Repr

/-- The SDK enum `eARDISCOVERY_ERROR`: `ARDISCOVERY_OK`, or some other code. -/
inductive eARDISCOVERY_ERROR where
  | ARDISCOVERY_OK
  | ARDISCOVERY_ERROR (code : Nat)
  deriving DecidableEq, Repr

/-- The SDK enum `eARCONTROLLER_DEVICE_STATE`. The source names `STOPPED`,
`RUNNING` and `MAX`; the other values are the ones the SDK header declares. -/
inductive eARCONTROLLER_DEVICE_STATE where
  | ARCONTROLLER_DEVICE_STATE_STOPPED
  | ARCONTROLLER_DEVICE_STATE_STARTING
  | ARCONTROLLER_DEVICE_STATE_RUNNING
  | ARCONTROLLER_DEVICE_STATE_PAUSED
  | ARCONTROLLER_DEVICE_STATE_STOPPING
  | ARCONTROLLER_DEVICE_STATE_MAX
  deriving DecidableEq, Repr

open eARCONTROLLER_ERROR eARDISCOVERY_ERROR eARCONTROLLER_DEVICE_STATE

/-- A thrown `std::runtime_error`. `message` is the string literal of the throw
site; where the source appends `ARCONTROLLER_Error_ToString(e)` or
`ARDISCOVERY_Error_ToString(e)` to it, the code `e` is kept next to it. -/
structure runtime_error where
  message : String
  controller_error : Option eARCONTROLLER_ERROR
  discovery_error : Option eARDISCOVERY_ERROR
  deriving DecidableEq, Repr

/-- One call into the SDK, with the arguments the source passes. -/
inductive SdkCall where
  | ARSAL_Sem_Init
  | ARSAL_Sem_Wait
  | ARSAL_Sem_Destroy
  | ARDISCOVERY_Device_New
  | ARDISCOVERY_Device_InitWifi (device : Option Handle)
  | ARDISCOVERY_Device_Delete (device : Option Handle)
  | ARCONTROLLER_Device_New (device : Option Handle)
  | ARCONTROLLER_Device_AddStateChangedCallback (controller : Option Handle)
  | ARCONTROLLER_Device_AddCommandReceivedCallback (controller : Option Handle)
  | ARCONTROLLER_Device_SetVideoReceiveCallback (controller : Option Handle)
  | ARCONTROLLER_Device_Start (controller : Option Handle)
  | ARCONTROLLER_Device_GetState (controller : Option Handle)
  | ARCONTROLLER_Device_Stop (controller : Option Handle)
  | ARCONTROLLER_Device_Delete (controller : Option Handle)
  | sendMediaStreamingVideoEnable (controller : Option Handle) (enable : Nat)
  | sendPilotingTakeOff (controller : Option Handle)
  | sendPilotingLanding (controller : Option Handle)
  | setPilotingPCMD (controller : Option Handle) (flag : Nat) (roll pitch yaw gaz : Int) (psi : Nat)
  | sendCameraOrientation (controller : Option Handle) (tilt pan : Int)
  deriving DecidableEq

/-- The member `state_sem_` (an `ARSAL_Sem_t`): whether `ARSAL_Sem_Init` has
made it and `ARSAL_Sem_Destroy` has not yet unmade it. -/
inductive SemState where
  | uninitialised
  | live
  | destroyed
  deriving DecidableEq, Repr

/-- Modelled from the spec: the decoder collaborator (class `VideoDecoder`,
whose files are not under src/), as section 6 gives it: `frame_width()`,
`frame_height()`, and `frame_pixels()`, a byte pointer. `frame_rgb_raw i` is the
byte at offset `i` from that pointer. -/
structure VideoDecoder where
  frame_width : Nat
  frame_height : Nat
  frame_rgb_raw : Nat → Nat

/-- The accessor `GetFrameWidth()`, read as the `uint32_t` the source assigns it to. -/
def VideoDecoder.GetFrameWidth (d : VideoDecoder) : Nat := d.frame_width % 2 ^ 32

/-- The accessor `GetFrameHeight()`, read as the `uint32_t` the source assigns it to. -/
def VideoDecoder.GetFrameHeight (d : VideoDecoder) : Nat := d.frame_height % 2 ^ 32

/-- The accessor `GetFrameRGBRawCstPtr()`: the byte at each offset from the pointer. -/
def VideoDecoder.GetFrameRGBRawCstPtr (d : VideoDecoder) : Nat → Nat := d.frame_rgb_raw

/-- One `Update(arguments, time)` call on a handler of the dispatch table. -/
structure UpdateCall where
  handler : Nat
  arguments : Nat
  time : Nat
  deriving DecidableEq, Repr

/-- The data members of `Bebop`, with two ghost fields: `sdk_calls`, the calls
made into the SDK so far, and `updates`, the `Update` calls made on handlers.
`callback_map_` is the `std::map` from command key to handler (a shared
pointer, here its identity). -/
structure Bebop where
  is_connected_ : Bool
  device_ptr_ : Option Handle
  device_controller_ptr_ : Option Handle
  error_ : eARCONTROLLER_ERROR
  device_state_ : eARCONTROLLER_DEVICE_STATE
  state_sem_ : SemState
  video_decoder_ : VideoDecoder
  is_frame_avail_ : Bool
  callback_map_ : Nat → Option Nat
  sdk_calls : List SdkCall
  updates : List UpdateCall

/-- Records one SDK call. -/
def Bebop.call (b : Bebop) (c : SdkCall) : Bebop :=
  { b with sdk_calls := b.sdk_calls ++ [c] }

/-- The constructor `Bebop::Bebop` (lines 113-128). -/
def Bebop.new : Bebop :=
  { is_connected_ := false
    device_ptr_ := none
    device_controller_ptr_ := none
    error_ := ARCONTROLLER_OK
    device_state_ := ARCONTROLLER_DEVICE_STATE_MAX
    state_sem_ := SemState.uninitialised
    video_decoder_ := { frame_width := 0, frame_height := 0, frame_rgb_raw := fun _ => 0 }
    is_frame_avail_ := false
    callback_map_ := fun _ => none
    sdk_calls := []
    updates := [] }

/-- What `ARDISCOVERY_Device_New` and `ARCONTROLLER_Device_New` report: a new
(non-null) handle with the OK code, or `NULL` with an error code. -/
inductive NewResult where
  | created (h : Handle)
  | failed (code : Nat)
  deriving DecidableEq, Repr

/-- The pointer a `..._New` call returns. -/
def NewResult.ptr : NewResult → Option Handle
  | created h => some h
  | failed _ => none

/-- The code `ARCONTROLLER_Device_New` writes through its error argument. -/
def NewResult.controller_error : NewResult → eARCONTROLLER_ERROR
  | created _ => ARCONTROLLER_OK
  | failed c => ARCONTROLLER_ERROR c

/-- The code `ARDISCOVERY_Device_New` writes through its error argument. -/
def NewResult.discovery_error : NewResult → eARDISCOVERY_ERROR
  | created _ => ARDISCOVERY_OK
  | failed c => ARDISCOVERY_ERROR c

/-- What the SDK reports to the calls `Cleanup` makes. -/
structure CleanupSdk where
  GetState_error : eARCONTROLLER_ERROR
  GetState : eARCONTROLLER_DEVICE_STATE
  Device_Stop : eARCONTROLLER_ERROR
  deriving DecidableEq, Repr

/-- What the SDK reports to the calls `Connect` makes, in the order of the
calls, and `callback_includes`: the effect on `callback_map_` of the two
autogenerated headers included under `BEBOP_UPDTAE_CALLBACK_MAP` (lines
197-200), which are not under src/. -/
structure ConnectSdk where
  ARDISCOVERY_Device_New : NewResult
  ARDISCOVERY_Device_InitWifi : eARDISCOVERY_ERROR
  ARCONTROLLER_Device_New : NewResult
  AddStateChangedCallback : eARCONTROLLER_ERROR
  AddCommandReceivedCallback : eARCONTROLLER_ERROR
  SetVideoReceiveCallback : eARCONTROLLER_ERROR
  Device_Start : eARCONTROLLER_ERROR
  GetState_error : eARCONTROLLER_ERROR
  GetState : eARCONTROLLER_DEVICE_STATE
  sendMediaStreamingVideoEnable : eARCONTROLLER_ERROR
  callback_includes : (Nat → Option Nat) → (Nat → Option Nat)

/-- Source function `Bebop::ThrowOnInternalError` (lines 325-331). -/
def ThrowOnInternalError (b : Bebop) (message : String) : Except runtime_error Unit :=
  if !b.is_connected_ || b.device_controller_ptr_.isNone then
    Except.error { message := message, controller_error := none, discovery_error := none }
  else
    Except.ok ()

/-- Source function `Bebop::ThrowOnCtrlError` (lines 333-339). -/
def ThrowOnCtrlError (error : eARCONTROLLER_ERROR) (message : String) :
    Except runtime_error Unit :=
  if error ≠ ARCONTROLLER_OK then
    Except.error { message := message, controller_error := some error, discovery_error := none }
  else
    Except.ok ()

/-- Source function `Bebop::Cleanup` (lines 213-231). `ARCONTROLLER_Device_Delete(&p)` frees
the controller and sets `p` to `NULL`. -/
def Cleanup (b : Bebop) (sdk : CleanupSdk) : Bebop :=
  let b1 :=
    if b.device_controller_ptr_.isSome then
      let b2 := { b.call (SdkCall.ARCONTROLLER_Device_GetState b.device_controller_ptr_) with
                  device_state_ := sdk.GetState, error_ := sdk.GetState_error }
      let b3 :=
        if b2.error_ = ARCONTROLLER_OK ∧ b2.device_state_ ≠ ARCONTROLLER_DEVICE_STATE_STOPPED then
          let b4 := { b2.call (SdkCall.ARCONTROLLER_Device_Stop b2.device_controller_ptr_) with
                      error_ := sdk.Device_Stop }
          if b4.error_ = ARCONTROLLER_OK then b4.call SdkCall.ARSAL_Sem_Wait else b4
        else b2
      { b3.call (SdkCall.ARCONTROLLER_Device_Delete b3.device_controller_ptr_) with
        device_controller_ptr_ := none }
    else b
  { b1.call SdkCall.ARSAL_Sem_Destroy with state_sem_ := SemState.destroyed }

/-- Source function `Bebop::Disconnect` (lines 233-239). -/
def Disconnect (b : Bebop) (sdk : CleanupSdk) : Bool × Bebop :=
  if !b.is_connected_ then (false, b)
  else (true, Cleanup b sdk)

/-- The destructor `Bebop::~Bebop` (lines 130-137): deletes whichever of the
two handles is still held. -/
def destructor (b : Bebop) : Bebop :=
  let b1 :=
    if b.device_ptr_.isSome then
      { b.call (SdkCall.ARDISCOVERY_Device_Delete b.device_ptr_) with device_ptr_ := none }
    else b
  if b1.device_controller_ptr_.isSome then
    { b1.call (SdkCall.ARCONTROLLER_Device_Delete b1.device_controller_ptr_) with
      device_controller_ptr_ := none }
  else b1

/-- The `try` block of `Bebop::Connect` (lines 143-200): the first `throw`
ends it, with the object as it is at that point.
`ARDISCOVERY_Device_Delete(&p)` frees the device and sets `p` to `NULL`. -/
def Connect_try (b : Bebop) (sdk : ConnectSdk) : Except runtime_error Unit × Bebop :=
  if b.is_connected_ then
    (Except.error { message := "Already inited", controller_error := none,
                    discovery_error := none }, b)
  else
  let b1 := { b.call SdkCall.ARSAL_Sem_Init with state_sem_ := SemState.live }
  let b2 := { b1.call SdkCall.ARDISCOVERY_Device_New with
              device_ptr_ := sdk.ARDISCOVERY_Device_New.ptr }
  let error_discovery := sdk.ARDISCOVERY_Device_New.discovery_error
  if error_discovery ≠ ARDISCOVERY_OK then
    (Except.error { message := "Discovery failed: ", controller_error := none,
                    discovery_error := some error_discovery }, b2)
  else
  let b3 := b2.call (SdkCall.ARDISCOVERY_Device_InitWifi b2.device_ptr_)
  let error_discovery := sdk.ARDISCOVERY_Device_InitWifi
  if error_discovery ≠ ARDISCOVERY_OK then
    (Except.error { message := "Discovery failed: ", controller_error := none,
                    discovery_error := some error_discovery }, b3)
  else
  let b4 := { b3.call (SdkCall.ARCONTROLLER_Device_New b3.device_ptr_) with
              device_controller_ptr_ := sdk.ARCONTROLLER_Device_New.ptr
              error_ := sdk.ARCONTROLLER_Device_New.controller_error }
  match ThrowOnCtrlError b4.error_ "Creation of device controller failed: " with
  | Except.error e => (Except.error e, b4)
  | Except.ok _ =>
  let b5 := { b4.call (SdkCall.ARDISCOVERY_Device_Delete b4.device_ptr_) with device_ptr_ := none }
  let b6 := b5.call (SdkCall.ARCONTROLLER_Device_AddStateChangedCallback b5.device_controller_ptr_)
  match ThrowOnCtrlError sdk.AddStateChangedCallback "Registering state callback failed" with
  | Except.error e => (Except.error e, b6)
  | Except.ok _ =>
  let b7 := b6.call (SdkCall.ARCONTROLLER_Device_AddCommandReceivedCallback b6.device_controller_ptr_)
  match ThrowOnCtrlError sdk.AddCommandReceivedCallback "Registering command callback failed" with
  | Except.error e => (Except.error e, b7)
  | Except.ok _ =>
  let b8 := b7.call (SdkCall.ARCONTROLLER_Device_SetVideoReceiveCallback b7.device_controller_ptr_)
  match ThrowOnCtrlError sdk.SetVideoReceiveCallback "Registering video callback failed" with
  | Except.error e => (Except.error e, b8)
  | Except.ok _ =>
  let b9 := b8.call (SdkCall.ARCONTROLLER_Device_Start b8.device_controller_ptr_)
  match ThrowOnCtrlError sdk.Device_Start "Controller device start failed" with
  | Except.error e => (Except.error e, b9)
  | Except.ok _ =>
  let b10 := b9.call SdkCall.ARSAL_Sem_Wait
  let b11 := { b10.call (SdkCall.ARCONTROLLER_Device_GetState b10.device_controller_ptr_) with
               device_state_ := sdk.GetState, error_ := sdk.GetState_error }
  if b11.error_ ≠ ARCONTROLLER_OK ∨ b11.device_state_ ≠ ARCONTROLLER_DEVICE_STATE_RUNNING then
    (Except.error { message := "Waiting for device failed: ",
                    controller_error := some b11.error_, discovery_error := none }, b11)
  else
  let b12 := b11.call (SdkCall.sendMediaStreamingVideoEnable b11.device_controller_ptr_ 1)
  match ThrowOnCtrlError sdk.sendMediaStreamingVideoEnable "Starting video stream failed." with
  | Except.error e => (Except.error e, b12)
  | Except.ok _ =>
  (Except.ok (), { b12 with callback_map_ := sdk.callback_includes b12.callback_map_ })

/-- Source function `Bebop::Connect` (lines 139-211): the `try` block; on a throw, the handler
runs `Cleanup` and throws again; otherwise `is_connected_` is set. -/
def Connect (b : Bebop) (sdk : ConnectSdk) (cleanup : CleanupSdk) :
    Except runtime_error Unit × Bebop :=
  match Connect_try b sdk with
  | (Except.error e, b1) => (Except.error e, Cleanup b1 cleanup)
  | (Except.ok _, b1) => (Except.ok (), { b1 with is_connected_ := true })

/-- Source function `Bebop::Takeoff` (lines 241-247). `sdk` is what `sendPilotingTakeOff`
reports. -/
def Takeoff (b : Bebop) (sdk : eARCONTROLLER_ERROR) : Except runtime_error Unit × Bebop :=
  match ThrowOnInternalError b "Takeoff failed" with
  | Except.error e => (Except.error e, b)
  | Except.ok _ =>
    let b1 := b.call (SdkCall.sendPilotingTakeOff b.device_controller_ptr_)
    (ThrowOnCtrlError sdk "Takeoff failed", b1)

/-- Source function `Bebop::Land` (lines 249-255). `sdk` is what `sendPilotingLanding`
reports. -/
def Land (b : Bebop) (sdk : eARCONTROLLER_ERROR) : Except runtime_error Unit × Bebop :=
  match ThrowOnInternalError b "Land failed" with
  | Except.error e => (Except.error e, b)
  | Except.ok _ =>
    let b1 := b.call (SdkCall.sendPilotingLanding b.device_controller_ptr_)
    (ThrowOnCtrlError sdk "Land failed", b1)

/-- The C function `fabs`, on exact values. -/
def fabs (x : ℚ) : ℚ := |x|

/-- The number of binary digits of `n`, by halving at most `fuel` times. -/
def bit_length_aux : Nat → Nat → Nat
  | 0, _ => 0
  | fuel + 1, n => if n = 0 then 0 else bit_length_aux fuel (n / 2) + 1

/-- The number of binary digits of `n`: the least `k` with `n < 2 ^ k`. -/
def bit_length (n : Nat) : Nat := bit_length_aux n n

/-- Numerator and denominator of `(p / q) / 2 ^ e`. -/
def scale_by_pow2 (p q : Nat) (e : Int) : Nat × Nat :=
  if 0 ≤ e then (p, q * 2 ^ e.toNat) else (p * 2 ^ (-e).toNat, q)

/-- The exponent `e` of the binary64 grid around the positive rational `p / q`:
the binary64 values there are the multiples of `2 ^ e`. For a normal value
`e` is `floor (log2 (p / q)) - 52` (53 significant bits); it is never below
`-1074` (subnormal values). -/
def ulp_exponent (p q : Nat) : Int :=
  let k : Int := (bit_length p : Int) - (bit_length q : Int)
  let s := scale_by_pow2 p q k
  let floor_log2 : Int := if s.2 ≤ s.1 then k else k - 1
  max (floor_log2 - 52) (-1074)

/-- The binary64 value nearest to `x`, ties to the even significand (the IEEE
754 default rounding): the value of the decimal literal `x`, and `x` itself
when `x` is a `double`. Overflow to infinity (magnitudes of `2 ^ 1024` and
more) is not modelled. -/
def to_double (x : ℚ) : ℚ :=
  let p := x.num.natAbs
  let q := x.den
  if p = 0 then 0
  else
    let e := ulp_exponent p q
    let s := scale_by_pow2 p q e
    let m := s.1 / s.2
    let r := s.1 % s.2
    let m1 := if s.2 < 2 * r ∨ (2 * r = s.2 ∧ m % 2 = 1) then m + 1 else m
    let magnitude : ℚ :=
      if 0 ≤ e then ((m1 * 2 ^ e.toNat : Nat) : ℚ) else mkRat (m1 : Int) (2 ^ (-e).toNat)
    if x < 0 then -magnitude else magnitude

/-- The product `a * b` of two `double` values: the exact product, rounded once. -/
def double_mul (a b : ℚ) : ℚ := to_double (a * b)

/-- The integer part of `x`: the fraction is dropped, towards zero. -/
def trunc_toward_zero (x : ℚ) : Int := if 0 ≤ x then ⌊x⌋ else ⌈x⌉

/-- The conversion `static_cast<int8_t>(x)` of a `double`, also made when a
`double` is passed for an `int8_t` parameter: the fraction is dropped (towards
zero); a value outside the `int8_t` range, where C++ leaves the conversion
undefined, is wrapped modulo 256. -/
def static_cast_int8_t (x : ℚ) : Int :=
  let t : Int := trunc_toward_zero x
  (t + 128) % 256 - 128

/-- Source function `Bebop::Move` (lines 257-288). `sdk` is what `setPilotingPCMD` reports.
Each `double` parameter is given by a rational and holds the `double` nearest
to it (itself, when it is a `double`). `setPilotingPCMD` takes a `uint8_t`
flag and four `int8_t` axis values (the SDK's declaration): in the second call
each `double` product is converted to `int8_t` as it is passed. The
one-argument `ThrowOnCtrlError` uses the default message of the header, taken
to be empty. -/
def Move (b : Bebop) (roll pitch gaz_speed yaw_speed : ℚ) (sdk : eARCONTROLLER_ERROR) :
    Except runtime_error Unit × Bebop :=
  match ThrowOnInternalError b "Move failure" with
  | Except.error e => (Except.error e, b)
  | Except.ok _ =>
    let do_rp : Bool := !(decide (fabs roll < 0.001) && decide (fabs pitch < 0.001))
    let do_hover : Bool :=
      !do_rp && decide (fabs yaw_speed < 0.001) && decide (fabs gaz_speed < 0.001)
    if do_hover then
      let b1 := b.call (SdkCall.setPilotingPCMD b.device_controller_ptr_ 0 0 0 0 0 0)
      (ThrowOnCtrlError sdk "", b1)
    else
      let b1 := b.call (SdkCall.setPilotingPCMD b.device_controller_ptr_
        (if do_rp then 1 else 0)
        (static_cast_int8_t (double_mul (to_double roll) 100.0))
        (static_cast_int8_t (double_mul (to_double pitch) 100.0))
        (static_cast_int8_t (double_mul (to_double yaw_speed) 100.0))
        (static_cast_int8_t (double_mul (to_double gaz_speed) 100.0))
        0)
      (ThrowOnCtrlError sdk "", b1)

/-- What `Move` passes for the axis `x` is the `int8_t` value `v`: a value of
the `int8_t` range, and the `double` product `x * 100.0` with its fraction
dropped whenever that fits the range. Nothing is said of `v` otherwise. -/
def int8_axis_value (x : ℚ) (v : Int) : Prop :=
  -128 ≤ v ∧ v ≤ 127 ∧
  (-128 ≤ trunc_toward_zero (double_mul (to_double x) 100.0) ∧
    trunc_toward_zero (double_mul (to_double x) 100.0) ≤ 127 →
    v = trunc_toward_zero (double_mul (to_double x) 100.0))

/-- Source function `Bebop::MoveCamera` (lines 291-298). `sdk` is what
`sendCameraOrientation` reports. -/
def MoveCamera (b : Bebop) (tilt pan : ℚ) (sdk : eARCONTROLLER_ERROR) :
    Except runtime_error Unit × Bebop :=
  match ThrowOnInternalError b "Camera Move Failure" with
  | Except.error e => (Except.error e, b)
  | Except.ok _ =>
    let b1 := b.call (SdkCall.sendCameraOrientation b.device_controller_ptr_
      (static_cast_int8_t tilt) (static_cast_int8_t pan))
    (ThrowOnCtrlError sdk "", b1)

/-- Source function `std::vector<uint8_t>::resize(n)`: the first `n` bytes are kept, and zero
bytes are appended when the vector was shorter. -/
def vector_resize (buffer : List Nat) (n : Nat) : List Nat :=
  buffer.take n ++ List.replicate (n - buffer.length) 0

/-- Source function `std::copy(first, first + n, dest.begin())`: for `i` from `0` to `n - 1`,
in this order, element `i` of `dest` becomes the byte at `first + i`. -/
def std_copy (first : Nat → Nat) (n : Nat) (dest : List Nat) : List Nat :=
  (List.range n).foldl (fun d i => d.set i (first i)) dest

/-- What `GetFrontCameraFrame` hands back: its return value and its three
reference arguments. -/
structure FrameResult where
  returned : Bool
  buffer : List Nat
  width : Nat
  height : Nat
  deriving DecidableEq, Repr

/-- Source function `Bebop::GetFrontCameraFrame` (lines 300-323). `buffer` is the caller's
vector on entry. While `is_frame_avail_` is false the call waits on the
condition variable: there is no result. `num_bytes` is a `uint32_t`. -/
def GetFrontCameraFrame (b : Bebop) (buffer : List Nat) : Option (FrameResult × Bebop) :=
  if !b.is_frame_avail_ then none
  else
    let num_bytes : Nat :=
      (b.video_decoder_.GetFrameWidth * b.video_decoder_.GetFrameHeight * 3) % 2 ^ 32
    let buffer1 := vector_resize buffer num_bytes
    let buffer2 := std_copy b.video_decoder_.GetFrameRGBRawCstPtr num_bytes buffer1
    some ({ returned := true
            buffer := buffer2
            width := b.video_decoder_.GetFrameWidth
            height := b.video_decoder_.GetFrameHeight },
          { b with is_frame_avail_ := false })

/-- The SDK struct `ARCONTROLLER_DICTIONARY_ELEMENT_t`: the key it is hashed
under and its `arguments` pointer. -/
structure ARCONTROLLER_DICTIONARY_ELEMENT_t where
  key : String
  arguments : Nat
  deriving DecidableEq, Repr

/-- The uthash lookup `HASH_FIND_STR(head, key, out)`: the element of the table
hashed under `key`, or `NULL`. -/
def HASH_FIND_STR (head : List ARCONTROLLER_DICTIONARY_ELEMENT_t) (key : String) :
    Option ARCONTROLLER_DICTIONARY_ELEMENT_t :=
  head.find? (fun e => e.key == key)

/-- Source function `Bebop::CommandReceivedCallback` (lines 41-69). A dictionary is the list of
the elements of the hash table, the one `element_dict_ptr` points to first; the
null pointer is the empty list. `single_key` is the SDK's macro
`ARCONTROLLER_DICTIONARY_SINGLE_KEY`, and `now` is `ros::Time::now()`. -/
def CommandReceivedCallback (single_key : String) (cmd_key : Nat)
    (element_dict_ptr : List ARCONTROLLER_DICTIONARY_ELEMENT_t) (now : Nat) (b : Bebop) : Bebop :=
  match element_dict_ptr with
  | [] => b
  | first :: _ =>
    match HASH_FIND_STR element_dict_ptr single_key with
    | none => b
    | some _ =>
      match b.callback_map_ cmd_key with
      | none => b
      | some handler =>
        { b with updates := b.updates ++
            [{ handler := handler, arguments := first.arguments, time := now }] }

/-- One call of the connection life cycle, with what the SDK reports to it. -/
inductive LifecycleCall where
  | connect (sdk : ConnectSdk) (cleanup : CleanupSdk)
  | disconnect (cleanup : CleanupSdk)

/-- The object after one life-cycle call, whether it returned or threw. -/
def LifecycleCall.apply (b : Bebop) : LifecycleCall → Bebop
  | LifecycleCall.connect sdk cleanup => (Connect b sdk cleanup).2
  | LifecycleCall.disconnect cleanup => (Disconnect b cleanup).2

/-- The object after a sequence of life-cycle calls. -/
def run_calls (b : Bebop) (calls : List LifecycleCall) : Bebop :=
  calls.foldl LifecycleCall.apply b

/-- The SDK reports success to every call of `Connect`, and the device state
it reports after the wait is `RUNNING`. -/
def ConnectSdk.all_succeed (sdk : ConnectSdk) : Prop :=
  sdk.ARDISCOVERY_Device_New.discovery_error = ARDISCOVERY_OK ∧
  sdk.ARDISCOVERY_Device_InitWifi = ARDISCOVERY_OK ∧
  sdk.ARCONTROLLER_Device_New.controller_error = ARCONTROLLER_OK ∧
  sdk.AddStateChangedCallback = ARCONTROLLER_OK ∧
  sdk.AddCommandReceivedCallback = ARCONTROLLER_OK ∧
  sdk.SetVideoReceiveCallback = ARCONTROLLER_OK ∧
  sdk.Device_Start = ARCONTROLLER_OK ∧
  sdk.GetState_error = ARCONTROLLER_OK ∧
  sdk.GetState = ARCONTROLLER_DEVICE_STATE_RUNNING ∧
  sdk.sendMediaStreamingVideoEnable = ARCONTROLLER_OK

/-- An SDK run in which every call of `Connect` succeeds: device handle 1,
controller handle 2, state `RUNNING`, and a dispatch table of one entry
(command key 7, handler 3). -/
def sdk_all_ok : ConnectSdk :=
  { ARDISCOVERY_Device_New := NewResult.created 1
    ARDISCOVERY_Device_InitWifi := ARDISCOVERY_OK
    ARCONTROLLER_Device_New := NewResult.created 2
    AddStateChangedCallback := ARCONTROLLER_OK
    AddCommandReceivedCallback := ARCONTROLLER_OK
    SetVideoReceiveCallback := ARCONTROLLER_OK
    Device_Start := ARCONTROLLER_OK
    GetState_error := ARCONTROLLER_OK
    GetState := ARCONTROLLER_DEVICE_STATE_RUNNING
    sendMediaStreamingVideoEnable := ARCONTROLLER_OK
    callback_includes := fun m k => if k = 7 then some 3 else m k }

/-- A `Cleanup` in which the controller reports `RUNNING` and accepts the stop request. -/
def cleanup_running : CleanupSdk :=
  { GetState_error := ARCONTROLLER_OK
    GetState := ARCONTROLLER_DEVICE_STATE_RUNNING
    Device_Stop := ARCONTROLLER_OK }

/-- A `Cleanup` in which the controller, never started, reports `STOPPED`. -/
def cleanup_stopped : CleanupSdk :=
  { GetState_error := ARCONTROLLER_OK
    GetState := ARCONTROLLER_DEVICE_STATE_STOPPED
    Device_Stop := ARCONTROLLER_OK }

/-- The object after `Connect` has succeeded on a new object. -/
def connected : Bebop := (Connect Bebop.new sdk_all_ok cleanup_running).2

/-- An SDK run in which the device is created and `ARDISCOVERY_Device_InitWifi`
then reports an error. -/
def sdk_wifi_fails : ConnectSdk :=
  { sdk_all_ok with ARDISCOVERY_Device_InitWifi := ARDISCOVERY_ERROR 1 }

/-- An SDK run in which the device is created and set up and
`ARCONTROLLER_Device_New` then reports an error. -/
def sdk_controller_fails : ConnectSdk :=
  { sdk_all_ok with ARCONTROLLER_Device_New := NewResult.failed 1 }

/-- An SDK run in which the command callback is refused. -/
def sdk_registration_fails : ConnectSdk :=
  { sdk_all_ok with AddCommandReceivedCallback := ARCONTROLLER_ERROR 1 }

/-- The claimed relation between the session handle and the recorded state:
the handle is non-null exactly when the state is Starting, Running or Stopping. -/
def session_matches_state (b : Bebop) : Prop :=
  b.device_controller_ptr_.isSome = true ↔
    (b.device_state_ = ARCONTROLLER_DEVICE_STATE_STARTING ∨
     b.device_state_ = ARCONTROLLER_DEVICE_STATE_RUNNING ∨
     b.device_state_ = ARCONTROLLER_DEVICE_STATE_STOPPING)

/-- An object whose decoder holds a frame of 65536 by 65536 pixels. -/
def big_frame : Bebop :=
  { Bebop.new with
    is_frame_avail_ := true
    video_decoder_ := { frame_width := 65536, frame_height := 65536, frame_rgb_raw := fun _ => 0 } }

/-- An object whose decoder holds a frame of 2 by 1 pixels, the bytes 5 to 10. -/
def small_frame : Bebop :=
  { Bebop.new with
    is_frame_avail_ := true
    video_decoder_ := { frame_width := 2, frame_height := 1, frame_rgb_raw := fun i => i + 5 } }

/-- A dictionary of two elements: the first hashed under another key, the
second under the single key (here the string "single"). -/
def mixed_dictionary : List ARCONTROLLER_DICTIONARY_ELEMENT_t :=
  [{ key := "other", arguments := 10 }, { key := "single", arguments := 20 }]

/-! ## Theorems -/

/-- The connection check throws, with the caller's message, when `is_connected_` is false or
the controller handle is null. -/
theorem ThrowOnInternalError_not_connected (b : Bebop) (message : String)
    (h : b.is_connected_ = false ∨ b.device_controller_ptr_ = none) :
    ThrowOnInternalError b message =
      Except.error { message := message, controller_error := none, discovery_error := none } := by
  unfold ThrowOnInternalError
  rcases h with h | h <;> simp [h]

/-- The connection check passes when `is_connected_` is true and the controller handle is
non-null. -/
theorem ThrowOnInternalError_connected (b : Bebop) (message : String)
    (hc : b.is_connected_ = true) (hp : b.device_controller_ptr_.isSome = true) :
    ThrowOnInternalError b message = Except.ok () := by
  unfold ThrowOnInternalError
  cases hd : b.device_controller_ptr_ with
  | none => simp [hd] at hp
  | some c => simp [hc]

/-- C2: on an object with `is_connected_` false or a null controller handle, each of
`Takeoff`, `Land`, `Move` and `MoveCamera`, for every argument value and whatever the SDK
would report, throws the error of `ThrowOnInternalError` and returns the object as it was:
no SDK call is recorded and no member changes. -/
theorem commands_before_connect (b : Bebop)
    (h : b.is_connected_ = false ∨ b.device_controller_ptr_ = none) :
    (∀ sdk, Takeoff b sdk = (Except.error ⟨"Takeoff failed", none, none⟩, b)) ∧
    (∀ sdk, Land b sdk = (Except.error ⟨"Land failed", none, none⟩, b)) ∧
    (∀ roll pitch gaz_speed yaw_speed sdk,
      Move b roll pitch gaz_speed yaw_speed sdk = (Except.error ⟨"Move failure", none, none⟩, b)) ∧
    (∀ tilt pan sdk,
      MoveCamera b tilt pan sdk = (Except.error ⟨"Camera Move Failure", none, none⟩, b)) := by
  refine ⟨?_, ?_, ?_, ?_⟩
  · intro sdk
    simp only [Takeoff, ThrowOnInternalError_not_connected b _ h]
  · intro sdk
    simp only [Land, ThrowOnInternalError_not_connected b _ h]
  · intro roll pitch gaz_speed yaw_speed sdk
    simp only [Move, ThrowOnInternalError_not_connected b _ h]
  · intro tilt pan sdk
    simp only [MoveCamera, ThrowOnInternalError_not_connected b _ h]

/-- C2 at the newly constructed object. -/
theorem commands_before_connect_witness :
    (∀ sdk, Takeoff Bebop.new sdk = (Except.error ⟨"Takeoff failed", none, none⟩, Bebop.new)) ∧
    (∀ sdk, Land Bebop.new sdk = (Except.error ⟨"Land failed", none, none⟩, Bebop.new)) ∧
    (∀ roll pitch gaz_speed yaw_speed sdk,
      Move Bebop.new roll pitch gaz_speed yaw_speed sdk =
        (Except.error ⟨"Move failure", none, none⟩, Bebop.new)) ∧
    (∀ tilt pan sdk,
      MoveCamera Bebop.new tilt pan sdk =
        (Except.error ⟨"Camera Move Failure", none, none⟩, Bebop.new)) :=
  commands_before_connect Bebop.new (Or.inl rfl)

/-- Zero is below the threshold. -/
theorem fabs_zero : fabs 0 < 0.001 := by
  unfold fabs
  norm_num

/-- The magnitude of 0.0005 is below the threshold. -/
theorem fabs_half_threshold : fabs 0.0005 < 0.001 := by
  unfold fabs
  rw [abs_of_nonneg (by norm_num)]
  norm_num

/-- With all four magnitudes below 0.001, `Move` on a connected object takes the hover
branch. -/
theorem Move_hover (b : Bebop)
    (hc : b.is_connected_ = true) (hp : b.device_controller_ptr_.isSome = true)
    (roll pitch gaz_speed yaw_speed : ℚ)
    (hr : fabs roll < 0.001) (hpi : fabs pitch < 0.001)
    (hg : fabs gaz_speed < 0.001) (hy : fabs yaw_speed < 0.001)
    (sdk : eARCONTROLLER_ERROR) :
    Move b roll pitch gaz_speed yaw_speed sdk =
      (ThrowOnCtrlError sdk "",
       b.call (SdkCall.setPilotingPCMD b.device_controller_ptr_ 0 0 0 0 0 0)) := by
  simp [Move, ThrowOnInternalError_connected b _ hc hp, hr, hpi, hg, hy]

/-- The function `Move` changes neither `is_connected_` nor the controller handle. -/
theorem Move_keeps_members (b : Bebop) (roll pitch gaz_speed yaw_speed : ℚ)
    (sdk : eARCONTROLLER_ERROR) :
    (Move b roll pitch gaz_speed yaw_speed sdk).2.is_connected_ = b.is_connected_ ∧
    (Move b roll pitch gaz_speed yaw_speed sdk).2.device_controller_ptr_ =
      b.device_controller_ptr_ := by
  unfold Move
  cases ThrowOnInternalError b "Move failure" with
  | error e => simp
  | ok u =>
    simp only []
    split <;> simp [Bebop.call]

/-- C3: on a connected object, for every (roll, pitch, gaz_speed, yaw_speed) whose four
magnitudes are below 0.001, `Move` issues exactly `setPilotingPCMD(0, 0, 0, 0, 0, 0)` and
nothing else; that is what `Move(0, 0, 0, 0)` does, so the two calls agree, as do
`Move(0.0005, 0, 0, 0)` and `Move(0, 0, 0, 0)`; and after any earlier `Move` the call still
appends that same command. -/
theorem Move_hover_override (b : Bebop)
    (hc : b.is_connected_ = true) (hp : b.device_controller_ptr_.isSome = true)
    (roll pitch gaz_speed yaw_speed : ℚ)
    (hr : fabs roll < 0.001) (hpi : fabs pitch < 0.001)
    (hg : fabs gaz_speed < 0.001) (hy : fabs yaw_speed < 0.001)
    (sdk : eARCONTROLLER_ERROR) :
    (Move b roll pitch gaz_speed yaw_speed sdk).2 =
        b.call (SdkCall.setPilotingPCMD b.device_controller_ptr_ 0 0 0 0 0 0) ∧
    Move b roll pitch gaz_speed yaw_speed sdk = Move b 0 0 0 0 sdk ∧
    Move b 0.0005 0 0 0 sdk = Move b 0 0 0 0 sdk ∧
    (∀ (r0 p0 g0 y0 : ℚ) (sdk0 : eARCONTROLLER_ERROR),
      (Move (Move b r0 p0 g0 y0 sdk0).2 roll pitch gaz_speed yaw_speed sdk).2.sdk_calls =
        (Move b r0 p0 g0 y0 sdk0).2.sdk_calls ++
          [SdkCall.setPilotingPCMD b.device_controller_ptr_ 0 0 0 0 0 0]) := by
  have h0 := Move_hover b hc hp 0 0 0 0 fabs_zero fabs_zero fabs_zero fabs_zero sdk
  refine ⟨?_, ?_, ?_, ?_⟩
  · rw [Move_hover b hc hp roll pitch gaz_speed yaw_speed hr hpi hg hy sdk]
  · rw [Move_hover b hc hp roll pitch gaz_speed yaw_speed hr hpi hg hy sdk, h0]
  · rw [Move_hover b hc hp 0.0005 0 0 0 fabs_half_threshold fabs_zero fabs_zero fabs_zero sdk, h0]
  · intro r0 p0 g0 y0 sdk0
    obtain ⟨k1, k2⟩ := Move_keeps_members b r0 p0 g0 y0 sdk0
    rw [Move_hover (Move b r0 p0 g0 y0 sdk0).2 (k1.trans hc) (by rw [k2]; exact hp)
      roll pitch gaz_speed yaw_speed hr hpi hg hy sdk, k2]
    rfl

/-- After a successful `Connect` the flag `is_connected_` is set. -/
theorem connected_is_connected : connected.is_connected_ = true := by decide

/-- After the successful `Connect` the controller handle is the one the SDK returned. -/
theorem connected_controller : connected.device_controller_ptr_ = some 2 := by decide

/-- C3 at the connected object: `Move(0.0005, 0, 0, 0)`. -/
theorem Move_hover_override_witness :
    (Move connected 0.0005 0 0 0 ARCONTROLLER_OK).2 =
        connected.call (SdkCall.setPilotingPCMD connected.device_controller_ptr_ 0 0 0 0 0 0) ∧
    Move connected 0.0005 0 0 0 ARCONTROLLER_OK = Move connected 0 0 0 0 ARCONTROLLER_OK :=
  have h := Move_hover_override connected connected_is_connected
    (by rw [connected_controller]; rfl) 0.0005 0 0 0
    fabs_half_threshold fabs_zero fabs_zero fabs_zero ARCONTROLLER_OK
  ⟨h.1, h.2.1⟩

/-- In the `int8_t` range the conversion is the integer part. -/
theorem static_cast_int8_t_in_range (x : ℚ)
    (h : -128 ≤ trunc_toward_zero x ∧ trunc_toward_zero x ≤ 127) :
    static_cast_int8_t x = trunc_toward_zero x := by
  unfold static_cast_int8_t
  simp only []
  omega

/-- The conversion always yields a value of the `int8_t` range. -/
theorem static_cast_int8_t_range (x : ℚ) :
    -128 ≤ static_cast_int8_t x ∧ static_cast_int8_t x ≤ 127 := by
  unfold static_cast_int8_t
  simp only []
  omega

/-- The value `Move` passes for an axis is an axis value in the sense of `int8_axis_value`. -/
theorem int8_axis_value_of_Move (x : ℚ) :
    int8_axis_value x (static_cast_int8_t (double_mul (to_double x) 100.0)) :=
  ⟨(static_cast_int8_t_range _).1, (static_cast_int8_t_range _).2,
    fun h => static_cast_int8_t_in_range _ h⟩

/-- Outside the hover case `Move` on a connected object issues one `setPilotingPCMD`, with
the flag `do_rp` and the four converted products. -/
theorem Move_not_hover (b : Bebop)
    (hc : b.is_connected_ = true) (hp : b.device_controller_ptr_.isSome = true)
    (roll pitch gaz_speed yaw_speed : ℚ) (sdk : eARCONTROLLER_ERROR)
    (h : ¬ ((fabs roll < 0.001 ∧ fabs pitch < 0.001) ∧
        fabs yaw_speed < 0.001 ∧ fabs gaz_speed < 0.001)) :
    (Move b roll pitch gaz_speed yaw_speed sdk).2 =
      b.call (SdkCall.setPilotingPCMD b.device_controller_ptr_
        (if fabs roll < 0.001 ∧ fabs pitch < 0.001 then 0 else 1)
        (static_cast_int8_t (double_mul (to_double roll) 100.0))
        (static_cast_int8_t (double_mul (to_double pitch) 100.0))
        (static_cast_int8_t (double_mul (to_double yaw_speed) 100.0))
        (static_cast_int8_t (double_mul (to_double gaz_speed) 100.0))
        0) := by
  by_cases hrp : fabs roll < 0.001 ∧ fabs pitch < 0.001
  · have hyg : ¬ (fabs yaw_speed < 0.001 ∧ fabs gaz_speed < 0.001) := fun k => h ⟨hrp, k⟩
    simp [Move, ThrowOnInternalError_connected b _ hc hp, hrp.1, hrp.2]
    rw [if_neg hyg]
  · have hh : ¬ (((fabs roll < 0.001 ∧ fabs pitch < 0.001) ∧ fabs yaw_speed < 0.001) ∧
        fabs gaz_speed < 0.001) := fun k => hrp k.1.1
    have hflag : 0.001 ≤ fabs roll ∨ 0.001 ≤ fabs pitch := by
      by_contra hn
      push_neg at hn
      exact hrp ⟨hn.1, hn.2⟩
    simp [Move, ThrowOnInternalError_connected b _ hc hp]
    rw [if_neg hh, if_pos hflag, if_neg hrp]

/-- C4 as amended: on a connected object, when the magnitude of roll or of pitch exceeds
0.001, `Move` issues `setPilotingPCMD` with flag 1; when both magnitudes are below 0.001 and
the input is not a hover input, it issues it with flag 0. In both cases the four axis
arguments, in the order roll, pitch, yaw_speed, gaz_speed, are `int8_t` values, each the
`double` product of its axis by 100.0 with the fraction dropped whenever that fits the
`int8_t` range. -/
theorem Move_roll_pitch_flag (b : Bebop)
    (hc : b.is_connected_ = true) (hp : b.device_controller_ptr_.isSome = true)
    (roll pitch gaz_speed yaw_speed : ℚ) (sdk : eARCONTROLLER_ERROR) :
    ((0.001 < fabs roll ∨ 0.001 < fabs pitch) →
      ∃ r p y g : Int,
        (Move b roll pitch gaz_speed yaw_speed sdk).2 =
          b.call (SdkCall.setPilotingPCMD b.device_controller_ptr_ 1 r p y g 0) ∧
        int8_axis_value roll r ∧ int8_axis_value pitch p ∧
        int8_axis_value yaw_speed y ∧ int8_axis_value gaz_speed g) ∧
    ((fabs roll < 0.001 ∧ fabs pitch < 0.001 ∧
        ¬ (fabs yaw_speed < 0.001 ∧ fabs gaz_speed < 0.001)) →
      ∃ r p y g : Int,
        (Move b roll pitch gaz_speed yaw_speed sdk).2 =
          b.call (SdkCall.setPilotingPCMD b.device_controller_ptr_ 0 r p y g 0) ∧
        int8_axis_value roll r ∧ int8_axis_value pitch p ∧
        int8_axis_value yaw_speed y ∧ int8_axis_value gaz_speed g) := by
  constructor
  · intro h
    have hrp : ¬ (fabs roll < 0.001 ∧ fabs pitch < 0.001) := by
      rintro ⟨h1, h2⟩
      rcases h with h | h
      · exact lt_asymm h h1
      · exact lt_asymm h h2
    refine ⟨_, _, _, _, ?_, int8_axis_value_of_Move roll, int8_axis_value_of_Move pitch,
      int8_axis_value_of_Move yaw_speed, int8_axis_value_of_Move gaz_speed⟩
    rw [Move_not_hover b hc hp roll pitch gaz_speed yaw_speed sdk (fun k => hrp k.1),
      if_neg hrp]
  · rintro ⟨h1, h2, h3⟩
    refine ⟨_, _, _, _, ?_, int8_axis_value_of_Move roll, int8_axis_value_of_Move pitch,
      int8_axis_value_of_Move yaw_speed, int8_axis_value_of_Move gaz_speed⟩
    rw [Move_not_hover b hc hp roll pitch gaz_speed yaw_speed sdk (fun k => h3 k.2),
      if_pos ⟨h1, h2⟩]

/-- The magnitude of 0.25 is above the threshold. -/
theorem fabs_quarter : 0.001 < fabs 0.25 := by
  unfold fabs
  rw [abs_of_nonneg (by norm_num)]
  norm_num

/-- The magnitude of 0.29 is above the threshold. -/
theorem fabs_029 : 0.001 < fabs 0.29 := by
  unfold fabs
  rw [abs_of_nonneg (by norm_num)]
  norm_num

/-- The `double` products of 0.25 and of 0 by 100.0 are 25 and 0. -/
theorem double_products_exact :
    trunc_toward_zero (double_mul (to_double 0.25) 100.0) = 25 ∧
    trunc_toward_zero (double_mul (to_double 0) 100.0) = 0 := by
  decide!

/-- The `double` product of 0.29 by 100.0 is just below 29, and is passed as 28. -/
theorem double_product_029 :
    double_mul (to_double 0.29) 100.0 = 8162774324609023 / 281474976710656 ∧
    static_cast_int8_t (double_mul (to_double 0.29) 100.0) = 28 ∧
    static_cast_int8_t (double_mul (to_double 0) 100.0) = 0 := by
  decide!

/-- C4 as amended, at the connected object: `Move(0.25, 0, 0, 0)` carries flag 1 and the
values 25, 0, 0, 0; `Move(0, 0, 0.25, 0)` carries flag 0 and the values 0, 0, 0, 25. -/
theorem Move_roll_pitch_flag_witness :
    (Move connected 0.25 0 0 0 ARCONTROLLER_OK).2 =
      connected.call (SdkCall.setPilotingPCMD connected.device_controller_ptr_ 1 25 0 0 0 0) ∧
    (Move connected 0 0 0.25 0 ARCONTROLLER_OK).2 =
      connected.call (SdkCall.setPilotingPCMD connected.device_controller_ptr_ 0 0 0 0 25 0) := by
  have hconn : connected.device_controller_ptr_.isSome = true := by
    rw [connected_controller]; rfl
  obtain ⟨e25, e0⟩ := double_products_exact
  constructor
  · obtain ⟨r, p, y, g, h, hr, hpi, hy, hg⟩ :=
      (Move_roll_pitch_flag connected connected_is_connected hconn 0.25 0 0 0
        ARCONTROLLER_OK).1 (Or.inl fabs_quarter)
    rw [h, hr.2.2 (by rw [e25]; decide), hpi.2.2 (by rw [e0]; decide),
      hy.2.2 (by rw [e0]; decide), hg.2.2 (by rw [e0]; decide), e25, e0]
  · obtain ⟨r, p, y, g, h, hr, hpi, hy, hg⟩ :=
      (Move_roll_pitch_flag connected connected_is_connected hconn 0 0 0.25 0
        ARCONTROLLER_OK).2 ⟨fabs_zero, fabs_zero, fun k => lt_asymm k.2 fabs_quarter⟩
    rw [h, hr.2.2 (by rw [e0]; decide), hpi.2.2 (by rw [e0]; decide),
      hy.2.2 (by rw [e0]; decide), hg.2.2 (by rw [e25]; decide), e25, e0]

/-- C4 as stated fails: at roll 0.29 (above the threshold) the command carries flag 1 and
the roll value 28, while roll*100 is 29; the `double` product is just below 29 and its
fraction is dropped. -/
theorem Move_roll_value_counterexample :
    0.001 < fabs 0.29 ∧
    (Move connected 0.29 0 0 0 ARCONTROLLER_OK).2 =
      connected.call (SdkCall.setPilotingPCMD connected.device_controller_ptr_ 1 28 0 0 0 0) ∧
    (0.29 : ℚ) * 100 = 29 ∧ ((28 : Int) : ℚ) ≠ 0.29 * 100 := by
  have hconn : connected.device_controller_ptr_.isSome = true := by
    rw [connected_controller]; rfl
  have hrp : ¬ (fabs (0.29 : ℚ) < 0.001 ∧ fabs (0 : ℚ) < 0.001) :=
    fun k => lt_asymm k.1 fabs_029
  refine ⟨fabs_029, ?_, by norm_num, by norm_num⟩
  rw [Move_not_hover connected connected_is_connected hconn 0.29 0 0 0 ARCONTROLLER_OK
    (fun k => hrp k.1), if_neg hrp, double_product_029.2.1, double_product_029.2.2]

/-- After `Cleanup` the controller handle is null. -/
theorem Cleanup_controller (b : Bebop) (sdk : CleanupSdk) :
    (Cleanup b sdk).device_controller_ptr_ = none := by
  unfold Cleanup
  cases h : b.device_controller_ptr_ with
  | none => simp [Bebop.call, h]
  | some c => simp [Bebop.call]

/-- The function `Cleanup` never writes `is_connected_`. -/
theorem Cleanup_is_connected (b : Bebop) (sdk : CleanupSdk) :
    (Cleanup b sdk).is_connected_ = b.is_connected_ := by
  unfold Cleanup
  cases h : b.device_controller_ptr_ with
  | none => simp [Bebop.call]
  | some c =>
    simp only [Bebop.call, Option.isSome_some, if_true]
    split_ifs <;> rfl

/-- The function `Cleanup` never touches `device_ptr_`. -/
theorem Cleanup_device_ptr (b : Bebop) (sdk : CleanupSdk) :
    (Cleanup b sdk).device_ptr_ = b.device_ptr_ := by
  unfold Cleanup
  cases h : b.device_controller_ptr_ with
  | none => simp [Bebop.call]
  | some c =>
    simp only [Bebop.call, Option.isSome_some, if_true]
    split_ifs <;> rfl

/-- The function `ThrowOnCtrlError` returns on `ARCONTROLLER_OK`. -/
theorem ThrowOnCtrlError_ok (message : String) :
    ThrowOnCtrlError ARCONTROLLER_OK message = Except.ok () := by
  simp [ThrowOnCtrlError]

/-- The function `ThrowOnCtrlError` throws on any other code. -/
theorem ThrowOnCtrlError_error (error : eARCONTROLLER_ERROR) (message : String)
    (h : error ≠ ARCONTROLLER_OK) :
    ThrowOnCtrlError error message =
      Except.error { message := message, controller_error := some error,
                     discovery_error := none } := by
  simp [ThrowOnCtrlError, h]

/-- When the object is not connected and every SDK call succeeds, the `try` block of
`Connect` completes, with the state `RUNNING` recorded, the controller handle held and the
device handle released. -/
theorem Connect_try_all_succeed (b : Bebop) (sdk : ConnectSdk)
    (hb : b.is_connected_ = false) (h : sdk.all_succeed) :
    (Connect_try b sdk).1 = Except.ok () ∧
    (Connect_try b sdk).2.device_state_ = ARCONTROLLER_DEVICE_STATE_RUNNING ∧
    (Connect_try b sdk).2.device_controller_ptr_ = sdk.ARCONTROLLER_Device_New.ptr ∧
    (Connect_try b sdk).2.device_ptr_ = none := by
  obtain ⟨h1, h2, h3, h4, h5, h6, h7, h8, h9, h10⟩ := h
  simp [Connect_try, hb, h1, h2, h3, h4, h5, h6, h7, h8, h9, h10, ThrowOnCtrlError_ok,
    Bebop.call]

/-- The `try` block of `Connect` completes only on an object that is not connected and only
when every SDK call succeeds. -/
theorem Connect_try_ok_only_if (b : Bebop) (sdk : ConnectSdk)
    (h : (Connect_try b sdk).1 = Except.ok ()) :
    b.is_connected_ = false ∧ sdk.all_succeed := by
  unfold ConnectSdk.all_succeed
  by_cases c0 : b.is_connected_ = true
  · simp [Connect_try, c0] at h
  by_cases c1 : sdk.ARDISCOVERY_Device_New.discovery_error = ARDISCOVERY_OK
  swap
  · simp [Connect_try, c0, c1] at h
  by_cases c2 : sdk.ARDISCOVERY_Device_InitWifi = ARDISCOVERY_OK
  swap
  · simp [Connect_try, c0, c1, c2] at h
  by_cases c3 : sdk.ARCONTROLLER_Device_New.controller_error = ARCONTROLLER_OK
  swap
  · simp [Connect_try, c0, c1, c2, ThrowOnCtrlError_error _ _ c3] at h
  by_cases c4 : sdk.AddStateChangedCallback = ARCONTROLLER_OK
  swap
  · simp [Connect_try, c0, c1, c2, c3, ThrowOnCtrlError_ok, ThrowOnCtrlError_error _ _ c4] at h
  by_cases c5 : sdk.AddCommandReceivedCallback = ARCONTROLLER_OK
  swap
  · simp [Connect_try, c0, c1, c2, c3, c4, ThrowOnCtrlError_ok,
      ThrowOnCtrlError_error _ _ c5] at h
  by_cases c6 : sdk.SetVideoReceiveCallback = ARCONTROLLER_OK
  swap
  · simp [Connect_try, c0, c1, c2, c3, c4, c5, ThrowOnCtrlError_ok,
      ThrowOnCtrlError_error _ _ c6] at h
  by_cases c7 : sdk.Device_Start = ARCONTROLLER_OK
  swap
  · simp [Connect_try, c0, c1, c2, c3, c4, c5, c6, ThrowOnCtrlError_ok,
      ThrowOnCtrlError_error _ _ c7] at h
  by_cases c8 : sdk.GetState_error = ARCONTROLLER_OK
  swap
  · simp [Connect_try, c0, c1, c2, c3, c4, c5, c6, c7, c8, ThrowOnCtrlError_ok] at h
  by_cases c9 : sdk.GetState = ARCONTROLLER_DEVICE_STATE_RUNNING
  swap
  · simp [Connect_try, c0, c1, c2, c3, c4, c5, c6, c7, c8, c9, ThrowOnCtrlError_ok] at h
  by_cases c10 : sdk.sendMediaStreamingVideoEnable = ARCONTROLLER_OK
  swap
  · simp [Connect_try, c0, c1, c2, c3, c4, c5, c6, c7, c8, c9, ThrowOnCtrlError_ok,
      ThrowOnCtrlError_error _ _ c10] at h
  exact ⟨by simpa using c0, c1, c2, c3, c4, c5, c6, c7, c8, c9, c10⟩

/-- After `resize(n)` the vector has `n` elements. -/
theorem vector_resize_length (buffer : List Nat) (n : Nat) :
    (vector_resize buffer n).length = n := by
  simp only [vector_resize, List.length_append, List.length_take, List.length_replicate]
  omega

/-- One more iteration of the copy loop. -/
theorem std_copy_succ (first : Nat → Nat) (n : Nat) (dest : List Nat) :
    std_copy first (n + 1) dest = (std_copy first n dest).set n (first n) := by
  simp [std_copy, List.range_succ, List.foldl_append]

/-- The copy loop keeps the length of its destination. -/
theorem std_copy_length (first : Nat → Nat) (n : Nat) (dest : List Nat) :
    (std_copy first n dest).length = dest.length := by
  induction n with
  | zero => simp [std_copy]
  | succ k ih => rw [std_copy_succ, List.length_set, ih]

/-- Element by element, what the copy loop leaves in its destination. -/
theorem std_copy_getElem_opt (first : Nat → Nat) (n : Nat) (dest : List Nat) (i : Nat) :
    (std_copy first n dest)[i]? =
      if i < n ∧ i < dest.length then some (first i) else dest[i]? := by
  induction n with
  | zero => simp [std_copy]
  | succ k ih =>
    rw [std_copy_succ, List.getElem?_set, ih, std_copy_length]
    by_cases hik : k = i
    · subst hik
      by_cases hl : k < dest.length
      · simp [hl]
      · have hge : dest.length ≤ k := by omega
        simp [hl, List.getElem?_eq_none hge]
    · simp only [hik, if_false]
      have : (i < k + 1 ∧ i < dest.length) ↔ (i < k ∧ i < dest.length) := by omega
      simp only [this]

/-- Copying `n` bytes over a destination of `n` elements leaves exactly the `n` source bytes. -/
theorem std_copy_full (first : Nat → Nat) (n : Nat) (dest : List Nat) (h : dest.length = n) :
    std_copy first n dest = (List.range n).map first := by
  apply List.ext_getElem?
  intro i
  rw [std_copy_getElem_opt, h]
  by_cases hi : i < n
  · simp [hi, List.getElem?_map, List.getElem?_range]
  · have h1 : dest[i]? = none := List.getElem?_eq_none (by omega)
    have h2 : ((List.range n).map first)[i]? = none :=
      List.getElem?_eq_none (by simp; omega)
    simp [hi, h1, h2]

/-- C8 as amended: when a frame is available, `GetFrontCameraFrame` returns true, width and
height are the decoder's, the buffer has exactly `(width * height * 3) mod 2^32` bytes (the
`uint32_t num_bytes`), which are the first so many bytes of the decoder's RGB frame whatever
the buffer held before, and afterwards `is_frame_avail_` is false and nothing else has
changed; when `width * height * 3` is below `2^32` the length is exactly `width * height *
3`. -/
theorem GetFrontCameraFrame_copies_frame (b : Bebop) (buffer : List Nat)
    (h : b.is_frame_avail_ = true) :
    ∃ r : FrameResult,
      GetFrontCameraFrame b buffer = some (r, { b with is_frame_avail_ := false }) ∧
      r.returned = true ∧
      r.width = b.video_decoder_.GetFrameWidth ∧
      r.height = b.video_decoder_.GetFrameHeight ∧
      r.buffer.length = (r.width * r.height * 3) % 2 ^ 32 ∧
      r.buffer = (List.range ((r.width * r.height * 3) % 2 ^ 32)).map
        b.video_decoder_.GetFrameRGBRawCstPtr ∧
      (r.width * r.height * 3 < 2 ^ 32 →
        r.buffer.length = r.width * r.height * 3 ∧
        r.buffer = (List.range (r.width * r.height * 3)).map
          b.video_decoder_.GetFrameRGBRawCstPtr) := by
  have hcopy := std_copy_full b.video_decoder_.GetFrameRGBRawCstPtr
    ((b.video_decoder_.GetFrameWidth * b.video_decoder_.GetFrameHeight * 3) % 2 ^ 32)
    (vector_resize buffer
      ((b.video_decoder_.GetFrameWidth * b.video_decoder_.GetFrameHeight * 3) % 2 ^ 32))
    (vector_resize_length _ _)
  refine ⟨{ returned := true
            buffer := std_copy b.video_decoder_.GetFrameRGBRawCstPtr
              ((b.video_decoder_.GetFrameWidth * b.video_decoder_.GetFrameHeight * 3) % 2 ^ 32)
              (vector_resize buffer
                ((b.video_decoder_.GetFrameWidth * b.video_decoder_.GetFrameHeight * 3) % 2 ^ 32))
            width := b.video_decoder_.GetFrameWidth
            height := b.video_decoder_.GetFrameHeight }, ?_, rfl, rfl, rfl, ?_, ?_, ?_⟩
  · simp [GetFrontCameraFrame, h]
  · dsimp only
    rw [hcopy, List.length_map, List.length_range]
  · exact hcopy
  · intro hlt
    dsimp only at hlt ⊢
    rw [hcopy, Nat.mod_eq_of_lt hlt, List.length_map, List.length_range]
    exact ⟨rfl, rfl⟩

/-- C8 as stated fails: with a decoder frame of 65536 by 65536 pixels, `num_bytes` wraps to
0, so the buffer returned is empty, not of `width * height * 3` bytes. -/
theorem GetFrontCameraFrame_length_wraps :
    ∃ r b1, GetFrontCameraFrame big_frame [] = some (r, b1) ∧
      r.returned = true ∧ r.width = 65536 ∧ r.height = 65536 ∧
      r.buffer.length = 0 ∧ r.buffer.length ≠ r.width * r.height * 3 :=
  ⟨_, _, rfl, rfl, by decide, by decide, by decide, by decide⟩

/-- C8 as amended, at a 2 by 1 frame and a caller buffer that held two other bytes. -/
theorem GetFrontCameraFrame_copies_frame_witness :
    small_frame.is_frame_avail_ = true ∧
    ∃ r : FrameResult,
      GetFrontCameraFrame small_frame [1, 2] =
        some (r, { small_frame with is_frame_avail_ := false }) ∧
      r.width = 2 ∧ r.height = 1 ∧ r.buffer = [5, 6, 7, 8, 9, 10] := by
  refine ⟨rfl, ?_⟩
  obtain ⟨r, h1, _, hw, hh, _, hb, _⟩ := GetFrontCameraFrame_copies_frame small_frame [1, 2] rfl
  refine ⟨r, h1, hw, hh, ?_⟩
  rw [hb, hw, hh]
  decide

/-- C1 on the code: after a successful `Connect`, the first `Disconnect` returns true and
the second returns true as well (not false); `ARSAL_Sem_Destroy` has then been called twice,
`ARCONTROLLER_Device_Delete` once. -/
theorem Disconnect_twice_evaluated :
    (Connect Bebop.new sdk_all_ok cleanup_running).1 = Except.ok () ∧
    (Disconnect connected cleanup_running).1 = true ∧
    (Disconnect (Disconnect connected cleanup_running).2 cleanup_running).1 = true ∧
    (Disconnect connected cleanup_running).2.sdk_calls.count SdkCall.ARSAL_Sem_Destroy = 1 ∧
    (Disconnect (Disconnect connected cleanup_running).2 cleanup_running).2.sdk_calls.count
      SdkCall.ARSAL_Sem_Destroy = 2 ∧
    (Disconnect (Disconnect connected cleanup_running).2 cleanup_running).2.sdk_calls.count
      (SdkCall.ARCONTROLLER_Device_Delete (some 2)) = 1 :=
  ⟨rfl, by decide, by decide, by decide, by decide, by decide⟩

/-- C5 on the code: when `ARDISCOVERY_Device_InitWifi` fails, or `ARCONTROLLER_Device_New`
fails, `Connect` throws and the object still holds the discovery device handle; only the
destructor deletes it. -/
theorem Connect_wifi_failure_evaluated :
    (Connect Bebop.new sdk_wifi_fails cleanup_stopped).1 =
      Except.error ⟨"Discovery failed: ", none, some (ARDISCOVERY_ERROR 1)⟩ ∧
    (Connect Bebop.new sdk_wifi_fails cleanup_stopped).2.device_ptr_ = some 1 ∧
    (Connect Bebop.new sdk_controller_fails cleanup_stopped).1 =
      Except.error ⟨"Creation of device controller failed: ", some (ARCONTROLLER_ERROR 1), none⟩ ∧
    (Connect Bebop.new sdk_controller_fails cleanup_stopped).2.device_ptr_ = some 1 ∧
    (destructor (Connect Bebop.new sdk_wifi_fails cleanup_stopped).2).device_ptr_ = none :=
  ⟨rfl, by decide, rfl, by decide, by decide⟩

/-- C10 on the code: a second `Connect` on a connected object throws `Already inited` after
`Cleanup` has run: the device was asked to stop, the controller was deleted (the handle is
null), the semaphore was destroyed, and `is_connected_` is still true. -/
theorem Connect_twice_evaluated :
    connected.is_connected_ = true ∧
    connected.device_controller_ptr_ = some 2 ∧
    connected.state_sem_ = SemState.live ∧
    (Connect connected sdk_all_ok cleanup_running).1 =
      Except.error ⟨"Already inited", none, none⟩ ∧
    (Connect connected sdk_all_ok cleanup_running).2.device_controller_ptr_ = none ∧
    (Connect connected sdk_all_ok cleanup_running).2.state_sem_ = SemState.destroyed ∧
    (Connect connected sdk_all_ok cleanup_running).2.is_connected_ = true ∧
    (Connect connected sdk_all_ok cleanup_running).2.sdk_calls =
      connected.sdk_calls ++
        [SdkCall.ARCONTROLLER_Device_GetState (some 2), SdkCall.ARCONTROLLER_Device_Stop (some 2),
         SdkCall.ARSAL_Sem_Wait, SdkCall.ARCONTROLLER_Device_Delete (some 2),
         SdkCall.ARSAL_Sem_Destroy] :=
  ⟨by decide, by decide, by decide, rfl, by decide, by decide, by decide, by decide⟩

/-- C9 on the code: for a dictionary whose first element is not the single-key element, the
handler registered under the command key is updated with the arguments of the first element
(10), not with those of the single-key element (20). -/
theorem CommandReceivedCallback_mixed_evaluated :
    connected.callback_map_ 7 = some 3 ∧
    HASH_FIND_STR mixed_dictionary "single" = some { key := "single", arguments := 20 } ∧
    (CommandReceivedCallback "single" 7 mixed_dictionary 0 connected).updates =
      [{ handler := 3, arguments := 10, time := 0 }] := by
  decide

/-- C6 as stated fails: after a successful `Connect` and a `Disconnect`, the controller
handle is null while `device_state_` is still `RUNNING`. -/
theorem session_state_counterexample :
    (run_calls Bebop.new [LifecycleCall.connect sdk_all_ok cleanup_running,
        LifecycleCall.disconnect cleanup_running]).device_controller_ptr_ = none ∧
    (run_calls Bebop.new [LifecycleCall.connect sdk_all_ok cleanup_running,
        LifecycleCall.disconnect cleanup_running]).device_state_ =
      ARCONTROLLER_DEVICE_STATE_RUNNING ∧
    ¬ session_matches_state (run_calls Bebop.new
        [LifecycleCall.connect sdk_all_ok cleanup_running,
         LifecycleCall.disconnect cleanup_running]) := by
  refine ⟨by decide, by decide, ?_⟩
  unfold session_matches_state
  decide

/-- The function `Connect` in terms of the outcome of its `try` block. -/
theorem Connect_eq (b : Bebop) (sdk : ConnectSdk) (cleanup : CleanupSdk) :
    Connect b sdk cleanup =
      match (Connect_try b sdk).1 with
      | Except.error e => (Except.error e, Cleanup (Connect_try b sdk).2 cleanup)
      | Except.ok _ => (Except.ok (), { (Connect_try b sdk).2 with is_connected_ := true }) := by
  unfold Connect
  rcases Connect_try b sdk with ⟨r, b1⟩
  cases r <;> rfl

/-- The `try` block of `Connect` never writes `is_connected_`. -/
theorem Connect_try_is_connected (b : Bebop) (sdk : ConnectSdk) :
    (Connect_try b sdk).2.is_connected_ = b.is_connected_ := by
  by_cases c0 : b.is_connected_ = true
  · simp [Connect_try, c0]
  by_cases c1 : sdk.ARDISCOVERY_Device_New.discovery_error = ARDISCOVERY_OK
  swap
  · simp [Connect_try, c0, c1, Bebop.call]
  by_cases c2 : sdk.ARDISCOVERY_Device_InitWifi = ARDISCOVERY_OK
  swap
  · simp [Connect_try, c0, c1, c2, Bebop.call]
  by_cases c3 : sdk.ARCONTROLLER_Device_New.controller_error = ARCONTROLLER_OK
  swap
  · simp [Connect_try, c0, c1, c2, ThrowOnCtrlError_error _ _ c3, Bebop.call]
  by_cases c4 : sdk.AddStateChangedCallback = ARCONTROLLER_OK
  swap
  · simp [Connect_try, c0, c1, c2, c3, ThrowOnCtrlError_ok, ThrowOnCtrlError_error _ _ c4,
      Bebop.call]
  by_cases c5 : sdk.AddCommandReceivedCallback = ARCONTROLLER_OK
  swap
  · simp [Connect_try, c0, c1, c2, c3, c4, ThrowOnCtrlError_ok,
      ThrowOnCtrlError_error _ _ c5, Bebop.call]
  by_cases c6 : sdk.SetVideoReceiveCallback = ARCONTROLLER_OK
  swap
  · simp [Connect_try, c0, c1, c2, c3, c4, c5, ThrowOnCtrlError_ok,
      ThrowOnCtrlError_error _ _ c6, Bebop.call]
  by_cases c7 : sdk.Device_Start = ARCONTROLLER_OK
  swap
  · simp [Connect_try, c0, c1, c2, c3, c4, c5, c6, ThrowOnCtrlError_ok,
      ThrowOnCtrlError_error _ _ c7, Bebop.call]
  by_cases c8 : sdk.GetState_error = ARCONTROLLER_OK
  swap
  · simp [Connect_try, c0, c1, c2, c3, c4, c5, c6, c7, c8, ThrowOnCtrlError_ok, Bebop.call]
  by_cases c9 : sdk.GetState = ARCONTROLLER_DEVICE_STATE_RUNNING
  swap
  · simp [Connect_try, c0, c1, c2, c3, c4, c5, c6, c7, c8, c9, ThrowOnCtrlError_ok, Bebop.call]
  by_cases c10 : sdk.sendMediaStreamingVideoEnable = ARCONTROLLER_OK
  swap
  · simp [Connect_try, c0, c1, c2, c3, c4, c5, c6, c7, c8, c9, ThrowOnCtrlError_ok,
      ThrowOnCtrlError_error _ _ c10, Bebop.call]
  simp [Connect_try, c0, c1, c2, c3, c4, c5, c6, c7, c8, c9, c10, ThrowOnCtrlError_ok,
    Bebop.call]

/-- On an object that is not connected, a `Connect` in which every SDK call succeeds
returns, sets `is_connected_` and leaves the state `RUNNING` recorded. -/
theorem Connect_all_succeed (b : Bebop) (sdk : ConnectSdk) (cleanup : CleanupSdk)
    (hb : b.is_connected_ = false) (h : sdk.all_succeed) :
    (Connect b sdk cleanup).1 = Except.ok () ∧
    (Connect b sdk cleanup).2.is_connected_ = true ∧
    (Connect b sdk cleanup).2.device_state_ = ARCONTROLLER_DEVICE_STATE_RUNNING := by
  obtain ⟨h1, h2, _, _⟩ := Connect_try_all_succeed b sdk hb h
  rw [Connect_eq, h1]
  exact ⟨rfl, rfl, h2⟩

/-- After any `Connect`, a non-null controller handle comes with the recorded state
`RUNNING`. -/
theorem Connect_controller_state (b : Bebop) (sdk : ConnectSdk) (cleanup : CleanupSdk)
    (h : (Connect b sdk cleanup).2.device_controller_ptr_.isSome = true) :
    (Connect b sdk cleanup).2.device_state_ = ARCONTROLLER_DEVICE_STATE_RUNNING := by
  rw [Connect_eq] at h ⊢
  cases hr : (Connect_try b sdk).1 with
  | error e =>
    rw [hr] at h
    simp [Cleanup_controller] at h
  | ok u =>
    obtain ⟨hb, hs⟩ := Connect_try_ok_only_if b sdk hr
    exact (Connect_try_all_succeed b sdk hb hs).2.1

/-- On a connected object `Connect` throws `Already inited`, and the handler runs `Cleanup`
on the live session. -/
theorem Connect_already_connected (b : Bebop) (sdk : ConnectSdk) (cleanup : CleanupSdk)
    (h : b.is_connected_ = true) :
    Connect b sdk cleanup =
      (Except.error ⟨"Already inited", none, none⟩, Cleanup b cleanup) := by
  simp [Connect_eq, Connect_try, h]

/-- When `Connect` throws, the controller handle is null afterwards and `is_connected_` is
as before. -/
theorem Connect_failure_releases_controller (b : Bebop) (sdk : ConnectSdk)
    (cleanup : CleanupSdk) (e : runtime_error)
    (h : (Connect b sdk cleanup).1 = Except.error e) :
    (Connect b sdk cleanup).2.device_controller_ptr_ = none ∧
    (Connect b sdk cleanup).2.is_connected_ = b.is_connected_ := by
  rw [Connect_eq] at h ⊢
  cases hr : (Connect_try b sdk).1 with
  | error e1 =>
    exact ⟨Cleanup_controller _ _, (Cleanup_is_connected _ _).trans (Connect_try_is_connected b sdk)⟩
  | ok u =>
    rw [hr] at h
    simp at h

/-- On every connected object two `Disconnect` calls in a row both return true, and the
second one calls `ARSAL_Sem_Destroy` once more. -/
theorem Disconnect_twice (b : Bebop) (c1 c2 : CleanupSdk) (h : b.is_connected_ = true) :
    (Disconnect b c1).1 = true ∧
    (Disconnect (Disconnect b c1).2 c2).1 = true ∧
    (Disconnect (Disconnect b c1).2 c2).2.sdk_calls =
      (Disconnect b c1).2.sdk_calls ++ [SdkCall.ARSAL_Sem_Destroy] := by
  have h1 : Disconnect b c1 = (true, Cleanup b c1) := by simp [Disconnect, h]
  have h2 : Disconnect (Cleanup b c1) c2 = (true, Cleanup (Cleanup b c1) c2) := by
    simp [Disconnect, Cleanup_is_connected, h]
  rw [h1]
  dsimp only
  rw [h2]
  refine ⟨rfl, rfl, ?_⟩
  dsimp only
  have hc := Cleanup_controller b c1
  generalize Cleanup b c1 = b1 at hc
  simp [Cleanup, hc, Bebop.call]

/-- The implication from a held controller handle to the recorded state `RUNNING` is kept by
every life-cycle call. -/
theorem run_calls_controller_state (calls : List LifecycleCall) (b : Bebop)
    (hb : b.device_controller_ptr_.isSome = true →
      b.device_state_ = ARCONTROLLER_DEVICE_STATE_RUNNING) :
    (run_calls b calls).device_controller_ptr_.isSome = true →
      (run_calls b calls).device_state_ = ARCONTROLLER_DEVICE_STATE_RUNNING := by
  induction calls generalizing b with
  | nil => exact hb
  | cons c rest ih =>
    have hstep : run_calls b (c :: rest) = run_calls (c.apply b) rest := rfl
    rw [hstep]
    apply ih
    cases c with
    | connect sdk cleanup => exact Connect_controller_state b sdk cleanup
    | disconnect cleanup =>
      intro h
      by_cases hconn : b.is_connected_ = true
      · simp [LifecycleCall.apply, Disconnect, hconn, Cleanup_controller] at h
      · have hsame : LifecycleCall.apply b (LifecycleCall.disconnect cleanup) = b := by
          simp [LifecycleCall.apply, Disconnect, hconn]
        rw [hsame] at h ⊢
        exact hb h

/-- C6 as amended: after every finite sequence of `Connect` and `Disconnect` calls on a new
object, with any SDK outcomes, a non-null controller handle implies that `device_state_` is
`RUNNING` (so one of Starting, Running, Stopping). The converse is not claimed. -/
theorem controller_handle_implies_running (calls : List LifecycleCall)
    (h : (run_calls Bebop.new calls).device_controller_ptr_.isSome = true) :
    (run_calls Bebop.new calls).device_state_ = ARCONTROLLER_DEVICE_STATE_RUNNING :=
  run_calls_controller_state calls Bebop.new (fun hn => by simp [Bebop.new] at hn) h

/-- C6 as amended, at a failed `Connect` followed by a successful one. -/
theorem controller_handle_implies_running_witness :
    (run_calls Bebop.new
        [LifecycleCall.connect sdk_registration_fails cleanup_stopped,
         LifecycleCall.connect sdk_all_ok cleanup_running]).device_controller_ptr_ = some 2 ∧
    (run_calls Bebop.new
        [LifecycleCall.connect sdk_registration_fails cleanup_stopped,
         LifecycleCall.connect sdk_all_ok cleanup_running]).device_state_ =
      ARCONTROLLER_DEVICE_STATE_RUNNING :=
  ⟨by decide, controller_handle_implies_running _ (by decide)⟩

/-- When one of the three callback registrations is refused, the `try` block throws the
matching error, after the discovery device has been deleted. -/
theorem Connect_try_registration_fails (b : Bebop) (sdk : ConnectSdk)
    (hb : b.is_connected_ = false)
    (h1 : sdk.ARDISCOVERY_Device_New.discovery_error = ARDISCOVERY_OK)
    (h2 : sdk.ARDISCOVERY_Device_InitWifi = ARDISCOVERY_OK)
    (h3 : sdk.ARCONTROLLER_Device_New.controller_error = ARCONTROLLER_OK)
    (hreg : sdk.AddStateChangedCallback ≠ ARCONTROLLER_OK ∨
      sdk.AddCommandReceivedCallback ≠ ARCONTROLLER_OK ∨
      sdk.SetVideoReceiveCallback ≠ ARCONTROLLER_OK) :
    (∃ e, (Connect_try b sdk).1 = Except.error e ∧
      (e.message = "Registering state callback failed" ∨
       e.message = "Registering command callback failed" ∨
       e.message = "Registering video callback failed")) ∧
    (Connect_try b sdk).2.device_ptr_ = none := by
  by_cases c4 : sdk.AddStateChangedCallback = ARCONTROLLER_OK
  swap
  · simp [Connect_try, hb, h1, h2, h3, ThrowOnCtrlError_ok, ThrowOnCtrlError_error _ _ c4,
      Bebop.call]
  by_cases c5 : sdk.AddCommandReceivedCallback = ARCONTROLLER_OK
  swap
  · simp [Connect_try, hb, h1, h2, h3, c4, ThrowOnCtrlError_ok,
      ThrowOnCtrlError_error _ _ c5, Bebop.call]
  have c6 : sdk.SetVideoReceiveCallback ≠ ARCONTROLLER_OK := by
    rcases hreg with h | h | h
    · exact absurd c4 h
    · exact absurd c5 h
    · exact h
  simp [Connect_try, hb, h1, h2, h3, c4, c5, ThrowOnCtrlError_ok,
    ThrowOnCtrlError_error _ _ c6, Bebop.call]

/-- C7: on an object that is not connected, a `Connect` that fails at one of the three
callback registrations throws the registration error and leaves `is_connected_` false,
`device_ptr_` null and `device_controller_ptr_` null, as on a new object; and a following
`Connect` in which every SDK call succeeds, with the state `RUNNING` reported, returns
without error and sets `is_connected_`. -/
theorem Connect_after_failed_registration (b : Bebop) (sdk : ConnectSdk) (cleanup : CleanupSdk)
    (hb : b.is_connected_ = false)
    (h1 : sdk.ARDISCOVERY_Device_New.discovery_error = ARDISCOVERY_OK)
    (h2 : sdk.ARDISCOVERY_Device_InitWifi = ARDISCOVERY_OK)
    (h3 : sdk.ARCONTROLLER_Device_New.controller_error = ARCONTROLLER_OK)
    (hreg : sdk.AddStateChangedCallback ≠ ARCONTROLLER_OK ∨
      sdk.AddCommandReceivedCallback ≠ ARCONTROLLER_OK ∨
      sdk.SetVideoReceiveCallback ≠ ARCONTROLLER_OK) :
    (∃ e, (Connect b sdk cleanup).1 = Except.error e ∧
      (e.message = "Registering state callback failed" ∨
       e.message = "Registering command callback failed" ∨
       e.message = "Registering video callback failed")) ∧
    (Connect b sdk cleanup).2.is_connected_ = false ∧
    (Connect b sdk cleanup).2.device_ptr_ = none ∧
    (Connect b sdk cleanup).2.device_controller_ptr_ = none ∧
    (∀ (sdk2 : ConnectSdk) (cleanup2 : CleanupSdk), sdk2.all_succeed →
      (Connect (Connect b sdk cleanup).2 sdk2 cleanup2).1 = Except.ok () ∧
      (Connect (Connect b sdk cleanup).2 sdk2 cleanup2).2.is_connected_ = true) := by
  obtain ⟨⟨e, he, hmsg⟩, hdev⟩ := Connect_try_registration_fails b sdk hb h1 h2 h3 hreg
  have hC : Connect b sdk cleanup = (Except.error e, Cleanup (Connect_try b sdk).2 cleanup) := by
    rw [Connect_eq, he]
  have hconn : (Connect b sdk cleanup).2.is_connected_ = false := by
    rw [hC]
    exact ((Cleanup_is_connected _ _).trans (Connect_try_is_connected b sdk)).trans hb
  refine ⟨⟨e, by rw [hC], hmsg⟩, hconn, ?_, ?_, ?_⟩
  · rw [hC]
    exact (Cleanup_device_ptr _ _).trans hdev
  · rw [hC]
    exact Cleanup_controller _ _
  · intro sdk2 cleanup2 hall
    have h := Connect_all_succeed (Connect b sdk cleanup).2 sdk2 cleanup2 hconn hall
    exact ⟨h.1, h.2.1⟩

/-- The sample run `sdk_all_ok` is one in which every SDK call succeeds. -/
theorem sdk_all_ok_all_succeed : sdk_all_ok.all_succeed := by
  unfold ConnectSdk.all_succeed
  decide

/-- C7 at a new object whose command callback is refused, followed by a `Connect` that
succeeds. -/
theorem Connect_after_failed_registration_witness :
    (∃ e, (Connect Bebop.new sdk_registration_fails cleanup_stopped).1 = Except.error e ∧
      (e.message = "Registering state callback failed" ∨
       e.message = "Registering command callback failed" ∨
       e.message = "Registering video callback failed")) ∧
    (Connect Bebop.new sdk_registration_fails cleanup_stopped).2.is_connected_ = false ∧
    (Connect Bebop.new sdk_registration_fails cleanup_stopped).2.device_ptr_ = none ∧
    (Connect Bebop.new sdk_registration_fails cleanup_stopped).2.device_controller_ptr_ = none ∧
    (Connect (Connect Bebop.new sdk_registration_fails cleanup_stopped).2
        sdk_all_ok cleanup_running).1 = Except.ok () ∧
    (Connect (Connect Bebop.new sdk_registration_fails cleanup_stopped).2
        sdk_all_ok cleanup_running).2.is_connected_ = true :=
  have h := Connect_after_failed_registration Bebop.new sdk_registration_fails cleanup_stopped
    rfl rfl rfl rfl (Or.inr (Or.inl (by decide)))
  ⟨h.1, h.2.1, h.2.2.1, h.2.2.2.1, h.2.2.2.2 sdk_all_ok cleanup_running sdk_all_ok_all_succeed⟩

/-- Routing of `CommandReceivedCallback`: the dispatch table is never changed; when the
dictionary is non-null, holds an element under the single key and the command key is
registered, exactly one `Update` is made, on the registered handler, with
`element_dict_ptr->arguments` (the arguments of the first element); in every other case
nothing happens. -/
theorem CommandReceivedCallback_routing (single_key : String) (cmd_key : Nat)
    (element_dict_ptr : List ARCONTROLLER_DICTIONARY_ELEMENT_t) (now : Nat) (b : Bebop) :
    (CommandReceivedCallback single_key cmd_key element_dict_ptr now b).callback_map_ =
      b.callback_map_ ∧
    (∀ first rest single handler,
      element_dict_ptr = first :: rest →
      HASH_FIND_STR element_dict_ptr single_key = some single →
      b.callback_map_ cmd_key = some handler →
      CommandReceivedCallback single_key cmd_key element_dict_ptr now b =
        { b with updates := b.updates ++
            [{ handler := handler, arguments := first.arguments, time := now }] }) ∧
    ((element_dict_ptr = [] ∨ HASH_FIND_STR element_dict_ptr single_key = none ∨
        b.callback_map_ cmd_key = none) →
      CommandReceivedCallback single_key cmd_key element_dict_ptr now b = b) := by
  refine ⟨?_, ?_, ?_⟩
  · unfold CommandReceivedCallback
    split
    · rfl
    · split
      · rfl
      · split <;> rfl
  · intro first rest single handler hd hs hh
    subst hd
    simp [CommandReceivedCallback, hs, hh]
  · intro h
    unfold CommandReceivedCallback
    split
    · rfl
    · split
      · rfl
      · split
        · rfl
        · rename_i hfind _ _ hmap
          rcases h with h | h | h
          · simp at h
          · rw [h] at hfind
            simp at hfind
          · rw [h] at hmap
            simp at hmap

end bebop_autonomy
